import Mathlib

/-!
# SCL-90 scoring backend — verification development

Shallow embedding of the SCL-90 analysis engine of this repository.
The repository contains two revisions of the same Express server:

* `src/index.js` ("Final Bugfix Version"), called **V1** below: a 5-level
  per-factor threshold scheme (`getFactorStatus`), an overall assessment
  computed from the rounded mean item score (`getOverallStatus(averageScore)`),
  a factor-level positive count (`positiveFactorCount`), and a knowledge
  lookup that substitutes a placeholder when an entry is missing.

* `src/unnamed/part_000` ("分析引擎 v2.0"), called **V2** below: a 4-level
  per-factor scheme, a five-rule ordered overall classifier
  `getOverallStatus(totalScore, positiveItemCount, factorDetails)`, an
  item-level positive count, and a knowledge lookup with no placeholder
  (a missing entry would throw and be turned into a 500 by the catch block).

A submission that passes shape validation and has distinct ids 1..90 makes
`answerMap` a finite map from the keys "1".."90" to coerced integer scores;
it is embedded as a function `s : Nat → Nat` giving the coerced score of
each item id.  Averages are exact rationals, as the JS engine divides
IEEE-exactly representable small integers and compares against the fixed
breakpoints with `<` (the spec notes no floating-point tolerance issues).
-/

namespace SCL90

/-- Per-factor severity levels of the V2 4-level scheme
(`part_000` `getFactorStatus`: normal/mild/moderate/severe). -/
inductive Level4 where
  | normal
  | mild
  | moderate
  | severe
deriving DecidableEq, Repr

/-- Numeric rank of a 4-level severity, following the order
normal < mild < moderate < severe used by the spec's monotonicity property. -/
def Level4.rank : Level4 → Nat
  | .normal => 0
  | .mild => 1
  | .moderate => 2
  | .severe => 3

/-- Per-factor severity levels of the V1 5-level scheme
(`index.js` `getFactorStatus`: normal/mild/moderate/severe/extreme). -/
inductive Level5 where
  | normal
  | mild
  | moderate
  | severe
  | extreme
deriving DecidableEq, Repr

/-- Numeric rank of a 5-level severity. -/
def Level5.rank : Level5 → Nat
  | .normal => 0
  | .mild => 1
  | .moderate => 2
  | .severe => 3
  | .extreme => 4

/-- Overall assessment levels of the V2 multi-rule classifier; the four
result objects of `part_000` `getOverallStatus` keyed by their `text`. -/
inductive OLevel where
  | normal
  | mild
  | moderate
  | severe
deriving DecidableEq, Repr

/-- Numeric rank of an overall level. -/
def OLevel.rank : OLevel → Nat
  | .normal => 0
  | .mild => 1
  | .moderate => 2
  | .severe => 3

/-- The `text` field of the V2 overall result objects. -/
def OLevel.text : OLevel → String
  | .normal => "正常状态"
  | .mild => "轻度症状"
  | .moderate => "中度症状"
  | .severe => "重度症状"

/-- The static Factor Map `SCL90_FACTORS`, identical in both revisions:
9 factor names, each with its list of member item ids. -/
def SCL90_FACTORS : List (String × List Nat) := [
  ("躯体化", [1, 4, 12, 27, 40, 42, 48, 49, 52, 53, 56, 58]),
  ("强迫症状", [3, 9, 10, 28, 38, 45, 46, 51, 55, 65]),
  ("人际关系敏感", [6, 21, 34, 36, 37, 41, 61, 69, 73]),
  ("抑郁", [5, 14, 15, 20, 22, 26, 29, 30, 31, 32, 54, 71, 79]),
  ("焦虑", [2, 17, 23, 33, 39, 57, 72, 78, 80, 86]),
  ("敌对", [11, 24, 63, 67, 74, 81]),
  ("恐怖", [13, 25, 47, 50, 70, 75, 82]),
  ("偏执", [8, 18, 43, 68, 76, 83]),
  ("精神病性", [7, 16, 35, 62, 77, 84, 85, 87, 88, 90])]

/-- All item ids appearing in some factor definition, in table order. -/
def factorIds : List Nat := (SCL90_FACTORS.map Prod.snd).flatten

/-- The seven inventory item ids that appear in no factor definition. -/
def unassignedIds : List Nat := [19, 44, 59, 60, 64, 66, 89]

/-- The 90 item ids of the inventory. -/
def idList : List Nat := List.range' 1 90

/-- V2 per-factor classifier (`part_000` `getFactorStatus`):
`<2 → normal`, `<3 → mild`, `<4 → moderate`, `else → severe`. -/
def getFactorStatus (averageScore : ℚ) : Level4 :=
  if averageScore < 2 then .normal
  else if averageScore < 3 then .mild
  else if averageScore < 4 then .moderate
  else .severe

/-- V1 per-factor classifier (`index.js` `getFactorStatus`):
`<1.5 → normal`, `<2.5 → mild`, `<3.5 → moderate`, `<4.5 → severe`,
`else → extreme`. -/
def getFactorStatusV1 (score : ℚ) : Level5 :=
  if score < 3/2 then .normal
  else if score < 5/2 then .mild
  else if score < 7/2 then .moderate
  else if score < 9/2 then .severe
  else .extreme

/-- Sum of all 90 mapped scores (`totalScore` in both submit handlers). -/
def totalScore (s : Nat → Nat) : Nat := (idList.map s).sum

/-- V2 positive-item count (`part_000`): number of mapped scores `≥ 2`. -/
def positiveItemCount (s : Nat → Nat) : Nat :=
  ((idList.map s).filter (fun x => decide (2 ≤ x))).length

/-- One entry of `factorDetails` in the V2 engine. -/
structure FactorDetailV2 where
  name : String
  totalScore : Nat
  averageScore : ℚ
  status : Level4
deriving DecidableEq, Repr

/-- One entry of `factorDetails` in the V1 engine. -/
structure FactorDetailV1 where
  name : String
  totalScore : Nat
  averageScore : ℚ
  status : Level5
deriving DecidableEq, Repr

/-- `factorTotalScore`: sum of the member item scores of one factor. -/
def factorTotalScore (s : Nat → Nat) (ids : List Nat) : Nat := (ids.map s).sum

/-- `factorAverageScore`: factor total divided by the member count,
kept at full precision (the "修复点1" comment in `index.js`). -/
def factorAverageScore (s : Nat → Nat) (ids : List Nat) : ℚ :=
  (factorTotalScore s ids : ℚ) / (ids.length : ℚ)

/-- The arrow function mapped over `Object.entries(SCL90_FACTORS)` in the
V2 submit handler, producing one `factorDetails` entry. -/
def mkFactorDetailV2 (s : Nat → Nat) (p : String × List Nat) : FactorDetailV2 :=
  { name := p.1
    totalScore := factorTotalScore s p.2
    averageScore := factorAverageScore s p.2
    status := getFactorStatus (factorAverageScore s p.2) }

/-- V2 `factorDetails`: one entry per Factor Map entry, in table order. -/
def factorDetailsV2 (s : Nat → Nat) : List FactorDetailV2 :=
  SCL90_FACTORS.map (mkFactorDetailV2 s)

/-- The corresponding arrow function of the V1 submit handler. -/
def mkFactorDetailV1 (s : Nat → Nat) (p : String × List Nat) : FactorDetailV1 :=
  { name := p.1
    totalScore := factorTotalScore s p.2
    averageScore := factorAverageScore s p.2
    status := getFactorStatusV1 (factorAverageScore s p.2) }

/-- V1 `factorDetails`. -/
def factorDetailsV1 (s : Nat → Nat) : List FactorDetailV1 :=
  SCL90_FACTORS.map (mkFactorDetailV1 s)

/-- V1 positive-factor count (`index.js` `positiveFactorCount`):
the number of factors whose classified level is not `normal`. -/
def positiveFactorCountV1 (s : Nat → Nat) : Nat :=
  ((factorDetailsV1 s).filter (fun f => decide (f.status ≠ Level5.normal))).length

/-- V2 overall classifier (`part_000` `getOverallStatus`): the ordered
first-match-wins rule chain exactly as written in the source, including
the "规则 2" mild rule and the conservative mild rule before the final
fallback. -/
def getOverallStatusV2 (totalScore positiveItemCount : Nat)
    (factorDetails : List FactorDetailV2) : OLevel :=
  if totalScore < 160 ∧ positiveItemCount ≤ 43 ∧
      (∀ f ∈ factorDetails, f.averageScore < 2) then .normal
  else if (300 ≤ totalScore ∨ ∃ f ∈ factorDetails, 4 ≤ f.averageScore) ∧
      80 < positiveItemCount then .severe
  else if ((200 ≤ totalScore ∧ totalScore ≤ 299) ∨
      ∃ f ∈ factorDetails, 3 ≤ f.averageScore ∧ f.averageScore < 4) ∧
      (60 ≤ positiveItemCount ∧ positiveItemCount ≤ 80) then .moderate
  else if ((160 ≤ totalScore ∧ totalScore ≤ 199) ∨
      ∃ f ∈ factorDetails, 2 ≤ f.averageScore ∧ f.averageScore < 3) ∧
      positiveItemCount < 60 then .mild
  else if 160 ≤ totalScore ∨ 43 < positiveItemCount then .mild
  else .normal

/-- `toFixed(2)` followed by `parseFloat`, applied to a nonnegative mean:
round to the nearest hundredth.  For means of the form `total/90` the value
is never a tie, so the rounding mode is immaterial. -/
def round2 (q : ℚ) : ℚ := (⌊q * 100 + 1/2⌋ : ℚ) / 100

/-- `stats.itemAverageScore`: the mean item score rounded to 2 decimals. -/
def itemAverageScore (s : Nat → Nat) : ℚ := round2 ((totalScore s : ℚ) / 90)

/-- V1 overall classifier (`index.js` `getOverallStatus`): the 5-level
threshold scheme applied to one average. -/
def getOverallStatusV1 (averageScore : ℚ) : Level5 :=
  if averageScore < 3/2 then .normal
  else if averageScore < 5/2 then .mild
  else if averageScore < 7/2 then .moderate
  else if averageScore < 9/2 then .severe
  else .extreme

/-- V1 `overallAssessment`, computed from `stats.itemAverageScore`. -/
def overallAssessmentV1 (s : Nat → Nat) : Level5 :=
  getOverallStatusV1 (itemAverageScore s)

/-- V2 `overallAssessment`, computed from the total score, the
positive-item count and the factor details. -/
def overallAssessmentV2 (s : Nat → Nat) : OLevel :=
  getOverallStatusV2 (totalScore s) (positiveItemCount s) (factorDetailsV2 s)

/-- `((count / denom) * 100).toFixed(0)`: the percentage rounded to the
nearest integer (the trailing "%" of the source string is dropped). -/
def pctOf (count denom : Nat) : ℤ := ⌊(count : ℚ) / (denom : ℚ) * 100 + 1/2⌋

/-- The `stats` object of a report.  Both revisions use the same JSON keys;
V1 stores the factor-level count (denominator 9), V2 stores the item-level
count (denominator 90) under the historic key `positiveFactorCount`. -/
structure Stats where
  totalScore : Nat
  itemAverageScore : ℚ
  positiveFactorCount : Nat
  positiveFactorPercentage : ℤ
deriving DecidableEq, Repr

/-- V2 `stats`. -/
def statsV2 (s : Nat → Nat) : Stats :=
  { totalScore := totalScore s
    itemAverageScore := itemAverageScore s
    positiveFactorCount := positiveItemCount s
    positiveFactorPercentage := pctOf (positiveItemCount s) 90 }

/-- V1 `stats`. -/
def statsV1 (s : Nat → Nat) : Stats :=
  { totalScore := totalScore s
    itemAverageScore := itemAverageScore s
    positiveFactorCount := positiveFactorCountV1 s
    positiveFactorPercentage := pctOf (positiveFactorCountV1 s) 9 }

/-- One knowledge-base entry: symptoms and advice text. -/
structure Knowledge where
  symptoms : String
  advice : String
deriving DecidableEq, Repr

/-- One entry of `detailedExplanations` in the V1 engine. -/
structure ExplanationV1 where
  name : String
  status : Level5
  symptoms : String
  advice : String
deriving DecidableEq, Repr

/-- One entry of `detailedExplanations` in the V2 engine. -/
structure ExplanationV2 where
  name : String
  status : Level4
  symptoms : String
  advice : String
deriving DecidableEq, Repr

/-- The single 4-level entry block that the `forEach` at the bottom of
`part_000` assigns to every factor of `KNOWLEDGE_BASE_V2`. -/
def KB_V2_ENTRY : Level4 → Knowledge
  | .normal =>
    { symptoms := "您在该方面表现平稳，心理状态健康。"
      advice := "请继续保持积极的生活方式。" }
  | .mild =>
    { symptoms := "您可能偶尔会体验到一些轻微的困扰，这些通常是情绪压力的早期信号。"
      advice := "尝试增加放松活动，如散步、听音乐或与朋友倾诉。" }
  | .moderate =>
    { symptoms := "您似乎比较频繁地体验到该方面的困扰，可能已开始影响您的日常生活。"
      advice := "建议您关注情绪的调节，学习压力管理技巧，必要时可寻求专业心理疏导。" }
  | .severe =>
    { symptoms := "您可能正被该方面的问题严重困扰，严重影响了生活质量，内心可能感到痛苦和焦虑。"
      advice := "强烈建议您寻求专业的心理健康支持，与咨询师或医生探讨这些症状是至关重要的一步。" }

/-- `KNOWLEDGE_BASE_V2` as a lookup: defined for every factor name of the
Factor Map at every 4-level severity, and for nothing else. -/
def KNOWLEDGE_BASE_V2 (name : String) (level : Level4) : Option Knowledge :=
  if name ∈ SCL90_FACTORS.map Prod.fst then some (KB_V2_ENTRY level) else none

/-- V1 `detailedExplanations` builder (`index.js`): on a missing knowledge
entry it logs and returns the fixed placeholder texts instead of failing. -/
def buildExplanationsV1 (kb : String → Level5 → Option Knowledge)
    (details : List FactorDetailV1) : List ExplanationV1 :=
  details.map (fun f =>
    match kb f.name f.status with
    | some k => { name := f.name, status := f.status,
                  symptoms := k.symptoms, advice := k.advice }
    | none => { name := f.name, status := f.status,
                symptoms := "解读信息缺失。", advice := "请联系管理员。" })

/-- V1 `detailedExplanations` of a submission, for a given knowledge base. -/
def detailedExplanationsV1 (kb : String → Level5 → Option Knowledge)
    (s : Nat → Nat) : List ExplanationV1 :=
  buildExplanationsV1 kb (factorDetailsV1 s)

/-- V2 `detailedExplanations` builder (`part_000`): there is no placeholder
branch; reading `.symptoms` of a missing entry throws, which the handler's
catch block converts into an HTTP 500 — embedded as `Except.error ()`. -/
def buildExplanationsV2 (kb : String → Level4 → Option Knowledge) :
    List FactorDetailV2 → Except Unit (List ExplanationV2)
  | [] => Except.ok []
  | f :: fs =>
    match kb f.name f.status with
    | none => Except.error ()
    | some k =>
      match buildExplanationsV2 kb fs with
      | Except.error e => Except.error e
      | Except.ok rest =>
        Except.ok ({ name := f.name, status := f.status,
                     symptoms := k.symptoms, advice := k.advice } :: rest)

/-- V2 `detailedExplanations` of a submission, for a given knowledge base. -/
def detailedExplanationsV2 (kb : String → Level4 → Option Knowledge)
    (s : Nat → Nat) : Except Unit (List ExplanationV2) :=
  buildExplanationsV2 kb (factorDetailsV2 s)

/-- The shape of the request body's `answers` field as seen by the submit
handler's guard `!answers || !Array.isArray(answers) || answers.length !== 90`:
a falsy value, a truthy non-array value, or an array of entries. -/
inductive AnswersField (α : Type) where
  | falsy : AnswersField α
  | truthyNonArray : AnswersField α
  | array : List α → AnswersField α

/-- The validation guard of both submit handlers: `true` means the handler
returns HTTP 400 with no report. -/
def rejectSubmission {α : Type} : AnswersField α → Bool
  | .falsy => true
  | .truthyNonArray => true
  | .array xs => decide (xs.length ≠ 90)

/-- Stated from the spec sentence behind claim C1: the Factor Map item-id
lists, concatenated, are exactly the ids 1..90 (disjointness and exact
coverage together amount to this permutation). -/
def specFactorPartition : Prop := factorIds.Perm idList

/-- Stated from the spec sentence behind claim C5: the number of the 90
items whose coerced score is at least 2. -/
def specPositiveItemCount (s : Nat → Nat) : Nat :=
  (idList.filter (fun i => decide (2 ≤ s i))).length

/-- Stated from the claim C4 decision table, verbatim: rules 1-4 and the
fallback, over the total score, the positive-item count and the list of
factor averages. -/
def specOverallTable (total positive : Nat) (avgs : List ℚ) : OLevel :=
  if total < 160 ∧ positive ≤ 43 ∧ (∀ a ∈ avgs, a < 2) then .normal
  else if (300 ≤ total ∨ ∃ a ∈ avgs, 4 ≤ a) ∧ 80 < positive then .severe
  else if ((200 ≤ total ∧ total ≤ 299) ∨ ∃ a ∈ avgs, 3 ≤ a ∧ a < 4) ∧
      (60 ≤ positive ∧ positive ≤ 80) then .moderate
  else if 160 ≤ total ∨ 43 < positive then .mild
  else .normal

/-- The claim C4 decision table amended as the code forces: between the
moderate rule and the `total ≥ 160 ∨ positive > 43` mild rule there is a
further mild rule `(total ∈ [160,199] ∨ some factor average ∈ [2,3)) ∧
positive < 60`. -/
def specOverallTableAmended (total positive : Nat) (avgs : List ℚ) : OLevel :=
  if total < 160 ∧ positive ≤ 43 ∧ (∀ a ∈ avgs, a < 2) then .normal
  else if (300 ≤ total ∨ ∃ a ∈ avgs, 4 ≤ a) ∧ 80 < positive then .severe
  else if ((200 ≤ total ∧ total ≤ 299) ∨ ∃ a ∈ avgs, 3 ≤ a ∧ a < 4) ∧
      (60 ≤ positive ∧ positive ≤ 80) then .moderate
  else if ((160 ≤ total ∧ total ≤ 199) ∨ ∃ a ∈ avgs, 2 ≤ a ∧ a < 3) ∧
      positive < 60 then .mild
  else if 160 ≤ total ∨ 43 < positive then .mild
  else .normal

/-- The all-zero submission: every item scored 0. -/
def zeroScores : Nat → Nat := fun _ => 0

/-- A knowledge base with no entries at all (5-level keys). -/
def emptyKB5 : String → Level5 → Option Knowledge := fun _ _ => none

/-- The somatization factor detail of the all-zero submission (V1 scheme). -/
def fSom : FactorDetailV1 :=
  mkFactorDetailV1 zeroScores ("躯体化", [1, 4, 12, 27, 40, 42, 48, 49, 52, 53, 56, 58])

/-- Submission scoring item 11 at 2 and the other five hostility items
(24, 63, 67, 74, 81) at 3; every other item 0. -/
def cexS3 : Nat → Nat := fun i =>
  if i = 11 then 2 else if i ∈ ([24, 63, 67, 74, 81] : List Nat) then 3 else 0

/-- `cexS3` with item 11 raised from 2 to 3. -/
def cexT3 : Nat → Nat := fun i =>
  if i = 11 then 3 else if i ∈ ([24, 63, 67, 74, 81] : List Nat) then 3 else 0

/-- Submission scoring all six hostility items at 2, everything else 0. -/
def cexS4 : Nat → Nat := fun i =>
  if i ∈ ([11, 24, 63, 67, 74, 81] : List Nat) then 2 else 0

/-- Submission scoring item 1 at 2 and every other item 0. -/
def cexS5 : Nat → Nat := fun i => if i = 1 then 2 else 0

/-- Submission scoring all six hostility items at 4, everything else 0. -/
def sHostile : Nat → Nat := fun i =>
  if i ∈ ([11, 24, 63, 67, 74, 81] : List Nat) then 4 else 0

/-- Submission scoring item 90 at 4 and every other item 0. -/
def oneItem90 : Nat → Nat := fun i => if i = 90 then 4 else 0

/-- Submission scoring the unassigned item 19 at 4 and everything else 0. -/
def spikeUnassigned : Nat → Nat := fun i => if i = 19 then 4 else 0

/-! ## Shared lemmas -/

/-- The factor item-id lists together with the seven unassigned ids are,
up to order, exactly the inventory ids 1..90. -/
theorem factorIds_append_unassigned_perm :
    (factorIds ++ unassignedIds).Perm idList := by decide

/-- No factor contains any of the seven unassigned item ids. -/
theorem factors_avoid_unassigned :
    ∀ p ∈ SCL90_FACTORS, ∀ i ∈ p.2, i ∉ unassignedIds := by decide

/-- The per-factor totals of `factorDetails` sum to the sum of the scores
of the 83 factor-assigned items. -/
theorem factorDetails_totalSum (s : Nat → Nat) :
    ((factorDetailsV2 s).map FactorDetailV2.totalScore).sum = (factorIds.map s).sum := by
  unfold factorDetailsV2 factorIds
  rw [List.map_map, List.map_flatten, List.sum_flatten, List.map_map, List.map_map]
  rfl

/-! ## Claim C1 -/

/-- Claim C1 counterexample: the Factor Map does not partition the ids
1..90 — the concatenated item-id lists are not a permutation of 1..90
(id 19, among others, is covered by no factor). -/
theorem factorMap_partition_refuted : ¬ specFactorPartition := by
  intro h
  exact absurd h.length_eq (by decide)

/-- Claim C1 (amended): the item-id lists of the 9 factor definitions are
pairwise disjoint (their concatenation has no duplicate), but they cover
only 83 of the ids 1..90; exactly the seven ids 19, 44, 59, 60, 64, 66
and 89 are covered by no factor. -/
theorem factorMap_disjoint_covers_83 :
    factorIds.Nodup ∧ factorIds.length = 83 ∧
      (factorIds ++ unassignedIds).Perm idList :=
  ⟨by decide, by decide, factorIds_append_unassigned_perm⟩

/-! ## Claim C7 -/

/-- Claim C7: the submit guard rejects with HTTP 400 exactly the requests
whose `answers` value is not an array of exactly 90 entries; every
90-element array passes the shape validation. -/
theorem submit_validation_characterization (α : Type) (a : AnswersField α) :
    rejectSubmission a = false ↔ ∃ xs, a = AnswersField.array xs ∧ xs.length = 90 := by
  cases a with
  | falsy => simp [rejectSubmission]
  | truthyNonArray => simp [rejectSubmission]
  | array xs => simp [rejectSubmission]

/-! ## Claim C8 -/

/-- Claim C8: under the 4-level scheme the per-factor classifier maps an
average `a` to normal iff `a < 2`, mild iff `2 ≤ a < 3`, moderate iff
`3 ≤ a < 4` and severe iff `a ≥ 4`; in particular 2.0 ↦ mild,
3.0 ↦ moderate and 4.0 ↦ severe. -/
theorem factorStatus_4level_boundaries (a : ℚ) :
    (getFactorStatus a = Level4.normal ↔ a < 2) ∧
    (getFactorStatus a = Level4.mild ↔ 2 ≤ a ∧ a < 3) ∧
    (getFactorStatus a = Level4.moderate ↔ 3 ≤ a ∧ a < 4) ∧
    (getFactorStatus a = Level4.severe ↔ 4 ≤ a) ∧
    getFactorStatus 2 = Level4.mild ∧ getFactorStatus 3 = Level4.moderate ∧
    getFactorStatus 4 = Level4.severe := by
  refine ⟨?_, ?_, ?_, ?_, by norm_num [getFactorStatus],
    by norm_num [getFactorStatus], by norm_num [getFactorStatus]⟩ <;>
  · unfold getFactorStatus
    split_ifs <;> simp_all <;>
      first
      | (constructor <;> linarith)
      | linarith
      | (intro h; linarith)

/-! ## Claim C2 -/

/-- Claim C2 counterexample: for the valid all-ones submission the report's
`stats.totalScore` is 90, while the per-factor `totalScore` fields of
`factorDetails` sum to only 83 — the seven unassigned items are counted in
the total but in no factor. -/
theorem totalScore_ne_factorSum :
    totalScore (fun _ => 1) = 90 ∧
    ((factorDetailsV2 (fun _ => 1)).map FactorDetailV2.totalScore).sum = 83 ∧
    totalScore (fun _ => 1) ≠
      ((factorDetailsV2 (fun _ => 1)).map FactorDetailV2.totalScore).sum := by
  have h83 : ((factorDetailsV2 (fun _ => 1)).map FactorDetailV2.totalScore).sum = 83 := by
    rw [factorDetails_totalSum]; decide
  exact ⟨by decide, h83, by rw [h83]; decide⟩

/-- Claim C2 (amended): for every submission with scores in 0..4 the
report's `stats.totalScore` lies in [0, 360] and equals the sum of the 9
per-factor `totalScore` fields plus the scores of the seven unassigned
items 19, 44, 59, 60, 64, 66 and 89. -/
theorem totalScore_decomposition (s : Nat → Nat) (h : ∀ i ∈ idList, s i ≤ 4) :
    totalScore s ≤ 360 ∧
    totalScore s = ((factorDetailsV2 s).map FactorDetailV2.totalScore).sum
      + (unassignedIds.map s).sum := by
  constructor
  · have hb := List.sum_le_card_nsmul (idList.map s) 4 (by
      intro x hx
      obtain ⟨i, hi, rfl⟩ := List.mem_map.1 hx
      exact h i hi)
    have hlen : (idList.map s).length = 90 := by simp [idList]
    rw [hlen] at hb
    simpa [totalScore, smul_eq_mul] using hb
  · rw [factorDetails_totalSum]
    have hp : ((factorIds ++ unassignedIds).map s).Perm (idList.map s) :=
      factorIds_append_unassigned_perm.map s
    have hs := hp.sum_eq
    rw [List.map_append, List.sum_append] at hs
    exact hs.symm

/-- Witness for `totalScore_decomposition` at the all-ones submission. -/
theorem totalScore_decomposition_witness :
    totalScore (fun _ => 1) ≤ 360 ∧
    totalScore (fun _ => 1) = ((factorDetailsV2 (fun _ => 1)).map FactorDetailV2.totalScore).sum
      + (unassignedIds.map (fun _ => 1)).sum :=
  totalScore_decomposition (fun _ => 1) (by decide)

/-! ## Claim C5 -/

/-- Filtering mapped scores counts the same items as filtering ids by
their score. -/
theorem length_filter_map_scores (l : List Nat) (s : Nat → Nat) :
    ((l.map s).filter (fun x => decide (2 ≤ x))).length =
      (l.filter (fun i => decide (2 ≤ s i))).length := by
  induction l with
  | nil => rfl
  | cons i l ih => by_cases h2 : 2 ≤ s i <;> simp [List.filter_cons, h2, ih]

/-- The V2 positive-item statistic is the spec's item-level count. -/
theorem positiveItemCount_eq_spec (s : Nat → Nat) :
    positiveItemCount s = specPositiveItemCount s :=
  length_filter_map_scores idList s

/-- Claim C5 (amended): in the V2 engine's reports the field keeps the
historic name `positiveFactorCount` but holds the item-level count of
items with coerced score ≥ 2, and its percentage out of 90; in the
`index.js` revision the same field instead holds the number of factors
classified above normal (see `positive_stat_factor_level_v1`). -/
theorem positive_stat_item_level_v2 (s : Nat → Nat) :
    (statsV2 s).positiveFactorCount = specPositiveItemCount s ∧
    (statsV2 s).positiveFactorPercentage = pctOf (specPositiveItemCount s) 90 := by
  have h := positiveItemCount_eq_spec s
  exact ⟨h, by simp [statsV2, h]⟩

/-- Claim C5 counterexample: for the valid submission scoring only item 1
at 2, one item has score ≥ 2, yet the `index.js` report's
`positiveFactorCount` is 0 — there it counts factors above normal, not
items. -/
theorem positive_stat_factor_level_v1 :
    specPositiveItemCount cexS5 = 1 ∧ (statsV1 cexS5).positiveFactorCount = 0 ∧
    (statsV1 cexS5).positiveFactorCount ≠ specPositiveItemCount cexS5 := by
  have h0 : (statsV1 cexS5).positiveFactorCount = 0 := by
    norm_num [statsV1, positiveFactorCountV1, factorDetailsV1, mkFactorDetailV1,
      SCL90_FACTORS, factorAverageScore, factorTotalScore, cexS5, getFactorStatusV1,
      List.filter_cons]
  have h1 : specPositiveItemCount cexS5 = 1 := by decide
  refine ⟨h1, h0, by rw [h0, h1]; decide⟩

/-! ## Monotonicity lemmas -/

/-- Pointwise bound from a single-item increase. -/
theorem pointwise_of_single {s t : Nat → Nat} {j : Nat}
    (hoff : ∀ i, i ≠ j → t i = s i) (hup : s j ≤ t j) : ∀ i, s i ≤ t i := by
  intro i
  by_cases hij : i = j
  · exact hij ▸ hup
  · exact (hoff i hij).ge

/-- Monotonicity of sums of mapped scores. -/
theorem mapSum_mono {l : List Nat} {s t : Nat → Nat} (h : ∀ i, s i ≤ t i) :
    (l.map s).sum ≤ (l.map t).sum :=
  List.sum_le_sum (fun i _ => h i)

/-- Monotonicity of a factor average in the underlying scores. -/
theorem factorAverageScore_mono {s t : Nat → Nat} (ids : List Nat)
    (h : ∀ i, s i ≤ t i) :
    factorAverageScore s ids ≤ factorAverageScore t ids := by
  unfold factorAverageScore
  rcases Nat.eq_zero_or_pos ids.length with h0 | h0
  · simp [h0]
  · have hq : ((factorTotalScore s ids : ℚ)) ≤ (factorTotalScore t ids : ℚ) := by
      exact_mod_cast mapSum_mono h
    have hd : (0:ℚ) < (ids.length : ℚ) := by exact_mod_cast h0
    exact (div_le_div_iff_of_pos_right hd).mpr hq

/-- Rounding to two decimals is monotone. -/
theorem round2_mono {a b : ℚ} (h : a ≤ b) : round2 a ≤ round2 b := by
  unfold round2
  have hf : (⌊a * 100 + 1/2⌋ : ℤ) ≤ ⌊b * 100 + 1/2⌋ :=
    Int.floor_le_floor (by linarith)
  have hq : ((⌊a * 100 + 1/2⌋ : ℤ) : ℚ) ≤ ((⌊b * 100 + 1/2⌋ : ℤ) : ℚ) := by
    exact_mod_cast hf
  linarith

/-- The rounded mean item score is monotone in the scores. -/
theorem itemAverageScore_mono {s t : Nat → Nat} (h : ∀ i, s i ≤ t i) :
    itemAverageScore s ≤ itemAverageScore t := by
  unfold itemAverageScore
  apply round2_mono
  have hq : (totalScore s : ℚ) ≤ (totalScore t : ℚ) := by
    exact_mod_cast mapSum_mono h
  linarith

/-- The V2 4-level per-factor classifier is monotone in the average. -/
theorem rank4_mono {a b : ℚ} (h : a ≤ b) :
    (getFactorStatus a).rank ≤ (getFactorStatus b).rank := by
  unfold getFactorStatus
  split_ifs <;> simp [Level4.rank] <;> linarith

/-- The V1 5-level per-factor classifier is monotone in the average. -/
theorem rank5_mono {a b : ℚ} (h : a ≤ b) :
    (getFactorStatusV1 a).rank ≤ (getFactorStatusV1 b).rank := by
  unfold getFactorStatusV1
  split_ifs <;> simp [Level5.rank] <;> linarith

/-- The V1 overall classifier is monotone in the average. -/
theorem rankOverallV1_mono {a b : ℚ} (h : a ≤ b) :
    (getOverallStatusV1 a).rank ≤ (getOverallStatusV1 b).rank := by
  unfold getOverallStatusV1
  split_ifs <;> simp [Level5.rank] <;> linarith

/-! ## Claim C3 -/

/-- Claim C3 (amended): increasing one item's score with all other items
fixed never decreases any factor's severity level — under either threshold
scheme — and never decreases the `index.js` mean-based overall severity;
the V2 multi-rule overall classifier, however, is not monotone (see
`overallV2_not_monotone`). -/
theorem classification_monotone (s t : Nat → Nat) (j : Nat)
    (hoff : ∀ i, i ≠ j → t i = s i) (hup : s j ≤ t j) :
    (∀ p ∈ SCL90_FACTORS,
      (getFactorStatus (factorAverageScore s p.2)).rank ≤
        (getFactorStatus (factorAverageScore t p.2)).rank ∧
      (getFactorStatusV1 (factorAverageScore s p.2)).rank ≤
        (getFactorStatusV1 (factorAverageScore t p.2)).rank) ∧
    (overallAssessmentV1 s).rank ≤ (overallAssessmentV1 t).rank := by
  have hpt := pointwise_of_single hoff hup
  constructor
  · intro p _
    exact ⟨rank4_mono (factorAverageScore_mono p.2 hpt),
      rank5_mono (factorAverageScore_mono p.2 hpt)⟩
  · exact rankOverallV1_mono (itemAverageScore_mono hpt)

/-- Witness for `classification_monotone`: raising item 90 from 0 to 4. -/
theorem classification_monotone_witness :
    (∀ p ∈ SCL90_FACTORS,
      (getFactorStatus (factorAverageScore zeroScores p.2)).rank ≤
        (getFactorStatus (factorAverageScore oneItem90 p.2)).rank ∧
      (getFactorStatusV1 (factorAverageScore zeroScores p.2)).rank ≤
        (getFactorStatusV1 (factorAverageScore oneItem90 p.2)).rank) ∧
    (overallAssessmentV1 zeroScores).rank ≤ (overallAssessmentV1 oneItem90).rank :=
  classification_monotone zeroScores oneItem90 90
    (fun i hi => by simp [oneItem90, zeroScores, hi]) (by decide)

/-- Claim C3 counterexample: raising item 11 (a hostility item) from 2 to
3, all other items fixed, drops the V2 multi-rule overall assessment from
mild to normal. -/
theorem overallV2_not_monotone :
    cexS3 11 = 2 ∧ cexT3 11 = 3 ∧
    (idList.all (fun i => cexT3 i == cexS3 i || i == 11)) = true ∧
    (idList.all (fun i => decide (cexS3 i ≤ 4) && decide (cexT3 i ≤ 4))) = true ∧
    overallAssessmentV2 cexS3 = OLevel.mild ∧
    overallAssessmentV2 cexT3 = OLevel.normal ∧
    OLevel.normal.rank < OLevel.mild.rank := by
  refine ⟨by decide, by decide, by decide, by decide, ?_, ?_, by decide⟩
  · have ht : totalScore cexS3 = 17 := by decide
    have hp : positiveItemCount cexS3 = 6 := by decide
    rw [overallAssessmentV2, ht, hp]
    norm_num [getOverallStatusV2, factorDetailsV2, SCL90_FACTORS, mkFactorDetailV2,
      factorAverageScore, factorTotalScore, cexS3, getFactorStatus]
  · have ht : totalScore cexT3 = 18 := by decide
    have hp : positiveItemCount cexT3 = 6 := by decide
    rw [overallAssessmentV2, ht, hp]
    norm_num [getOverallStatusV2, factorDetailsV2, SCL90_FACTORS, mkFactorDetailV2,
      factorAverageScore, factorTotalScore, cexT3, getFactorStatus]

/-! ## Claim C4 -/

/-- Claim C4 counterexample: with all six hostility items at 2 (total 12,
positive-item count 6, hostility average exactly 2) the code classifies
mild through its extra mild rule, while the claim's four-rule table ends
in the normal fallback. -/
theorem overallV2_table_mismatch :
    overallAssessmentV2 cexS4 = OLevel.mild ∧
    specOverallTable (totalScore cexS4) (positiveItemCount cexS4)
      ((factorDetailsV2 cexS4).map FactorDetailV2.averageScore) = OLevel.normal ∧
    overallAssessmentV2 cexS4 ≠
      specOverallTable (totalScore cexS4) (positiveItemCount cexS4)
        ((factorDetailsV2 cexS4).map FactorDetailV2.averageScore) := by
  have ht : totalScore cexS4 = 12 := by decide
  have hp : positiveItemCount cexS4 = 6 := by decide
  have h1 : overallAssessmentV2 cexS4 = OLevel.mild := by
    rw [overallAssessmentV2, ht, hp]
    norm_num [getOverallStatusV2, factorDetailsV2, SCL90_FACTORS, mkFactorDetailV2,
      factorAverageScore, factorTotalScore, cexS4, getFactorStatus]
  have h2 : specOverallTable (totalScore cexS4) (positiveItemCount cexS4)
      ((factorDetailsV2 cexS4).map FactorDetailV2.averageScore) = OLevel.normal := by
    rw [ht, hp]
    norm_num [specOverallTable, factorDetailsV2, SCL90_FACTORS, mkFactorDetailV2,
      factorAverageScore, factorTotalScore, cexS4, getFactorStatus]
  exact ⟨h1, h2, by rw [h1, h2]; decide⟩

/-- Claim C4 (amended): the V2 overall classifier is the claim's ordered
first-match-wins table with one more rule — between the moderate rule and
the `total ≥ 160 ∨ positive > 43` mild rule it classifies mild whenever
`(total ∈ [160,199] ∨ some factor average ∈ [2,3)) ∧ positive < 60`; only
inputs matched by none of the six rules fall back to normal. -/
theorem overallV2_eq_amended_table (t p : Nat) (d : List FactorDetailV2) :
    getOverallStatusV2 t p d =
      specOverallTableAmended t p (d.map FactorDetailV2.averageScore) := by
  have e1 : (∀ a ∈ d.map FactorDetailV2.averageScore, a < 2) ↔
      (∀ f ∈ d, f.averageScore < 2) := by simp
  have e2 : (∃ a ∈ d.map FactorDetailV2.averageScore, 4 ≤ a) ↔
      (∃ f ∈ d, 4 ≤ f.averageScore) := by simp
  have e3 : (∃ a ∈ d.map FactorDetailV2.averageScore, 3 ≤ a ∧ a < 4) ↔
      (∃ f ∈ d, 3 ≤ f.averageScore ∧ f.averageScore < 4) := by simp
  have e4 : (∃ a ∈ d.map FactorDetailV2.averageScore, 2 ≤ a ∧ a < 3) ↔
      (∃ f ∈ d, 2 ≤ f.averageScore ∧ f.averageScore < 3) := by simp
  unfold getOverallStatusV2 specOverallTableAmended
  simp only [e1, e2, e3, e4]

/-! ## Claim C9 -/

/-- Factor details only read factor-assigned items. -/
theorem factorDetails_frame {s t : Nat → Nat}
    (h : ∀ i, i ∉ unassignedIds → s i = t i) :
    factorDetailsV2 s = factorDetailsV2 t ∧ factorDetailsV1 s = factorDetailsV1 t := by
  have hids : ∀ p ∈ SCL90_FACTORS, factorTotalScore s p.2 = factorTotalScore t p.2 := by
    intro p hp
    unfold factorTotalScore
    exact congrArg List.sum (List.map_congr_left
      (fun i hi => h i (factors_avoid_unassigned p hp i hi)))
  constructor
  · unfold factorDetailsV2
    refine List.map_congr_left (fun p hp => ?_)
    unfold mkFactorDetailV2 factorAverageScore
    rw [hids p hp]
  · unfold factorDetailsV1
    refine List.map_congr_left (fun p hp => ?_)
    unfold mkFactorDetailV1 factorAverageScore
    rw [hids p hp]

/-- Claim C9: two submissions that differ only in the seven unassigned
items 19, 44, 59, 60, 64, 66, 89 produce identical `factorDetails` and
identical `detailedExplanations` in both engine revisions (for any
knowledge base). -/
theorem unassigned_frame (s t : Nat → Nat)
    (h : ∀ i, i ∉ unassignedIds → s i = t i) :
    factorDetailsV2 s = factorDetailsV2 t ∧
    factorDetailsV1 s = factorDetailsV1 t ∧
    (∀ kb, detailedExplanationsV2 kb s = detailedExplanationsV2 kb t) ∧
    (∀ kb, detailedExplanationsV1 kb s = detailedExplanationsV1 kb t) := by
  obtain ⟨h2, h1⟩ := factorDetails_frame h
  exact ⟨h2, h1, fun kb => by unfold detailedExplanationsV2; rw [h2],
    fun kb => by unfold detailedExplanationsV1; rw [h1]⟩

/-- Witness for `unassigned_frame`: the all-zero submission against the one
scoring item 19 at 4 — same factor report, different `stats.totalScore`. -/
theorem unassigned_frame_witness :
    (factorDetailsV2 zeroScores = factorDetailsV2 spikeUnassigned ∧
     factorDetailsV1 zeroScores = factorDetailsV1 spikeUnassigned ∧
     (∀ kb, detailedExplanationsV2 kb zeroScores = detailedExplanationsV2 kb spikeUnassigned) ∧
     (∀ kb, detailedExplanationsV1 kb zeroScores = detailedExplanationsV1 kb spikeUnassigned)) ∧
    totalScore zeroScores ≠ totalScore spikeUnassigned := by
  refine ⟨unassigned_frame zeroScores spikeUnassigned ?_, by decide⟩
  intro i hi
  by_cases h19 : i = 19
  · subst h19
    exact absurd (by decide : (19:Nat) ∈ unassignedIds) hi
  · simp [zeroScores, spikeUnassigned, h19]

/-! ## Claim C6 -/

/-- If the knowledge base has an entry for every factor detail, the V2
explanation builder succeeds. -/
theorem buildExplanationsV2_total (kb : String → Level4 → Option Knowledge)
    (l : List FactorDetailV2) (h : ∀ f ∈ l, (kb f.name f.status).isSome) :
    ∃ r, buildExplanationsV2 kb l = Except.ok r := by
  induction l with
  | nil => exact ⟨[], rfl⟩
  | cons f fs ih =>
    obtain ⟨k, hk⟩ := Option.isSome_iff_exists.1 (h f (List.mem_cons_self f fs))
    obtain ⟨r, hr⟩ := ih (fun g hg => h g (List.mem_cons_of_mem f hg))
    refine ⟨ExplanationV2.mk f.name f.status k.symptoms k.advice :: r, ?_⟩
    simp only [buildExplanationsV2]
    rw [hk, hr]

/-- Every factor detail's name is a Factor Map name, and the shipped
`KNOWLEDGE_BASE_V2` covers every Factor Map name at every 4-level
severity. -/
theorem kbV2_complete (s : Nat → Nat) :
    ∀ f ∈ factorDetailsV2 s, (KNOWLEDGE_BASE_V2 f.name f.status).isSome := by
  intro f hf
  obtain ⟨p, hp, rfl⟩ := List.mem_map.1 hf
  have hname : (mkFactorDetailV2 s p).name ∈ SCL90_FACTORS.map Prod.fst :=
    List.mem_map_of_mem Prod.fst hp
  unfold KNOWLEDGE_BASE_V2
  rw [if_pos hname]
  rfl

/-- Claim C6 (amended): in the `index.js` engine a missing knowledge entry
for a computed (factor, level) pair yields the fixed placeholder
symptoms/advice texts and the full 9-entry explanation list is still
produced (the request succeeds); the V2 engine has no placeholder branch —
a missing entry aborts the request with a 500 (see
`missing_knowledge_fails_v2`) — but its shipped `KNOWLEDGE_BASE_V2`
covers every reachable pair, so its explanation stage always succeeds. -/
theorem knowledge_lookup_degrades (kb : String → Level5 → Option Knowledge)
    (s : Nat → Nat) (f : FactorDetailV1)
    (hf : f ∈ factorDetailsV1 s) (hnone : kb f.name f.status = none) :
    ({ name := f.name, status := f.status, symptoms := "解读信息缺失。",
       advice := "请联系管理员。" } : ExplanationV1) ∈ detailedExplanationsV1 kb s ∧
    (detailedExplanationsV1 kb s).length = 9 ∧
    ∃ l, detailedExplanationsV2 KNOWLEDGE_BASE_V2 s = Except.ok l := by
  refine ⟨?_, ?_, ?_⟩
  · unfold detailedExplanationsV1 buildExplanationsV1
    refine List.mem_map.2 ⟨f, hf, ?_⟩
    rw [hnone]
  · unfold detailedExplanationsV1 buildExplanationsV1 factorDetailsV1
    simp [SCL90_FACTORS]
  · exact buildExplanationsV2_total KNOWLEDGE_BASE_V2 (factorDetailsV2 s) (kbV2_complete s)

/-- Witness for `knowledge_lookup_degrades`: the empty knowledge base and
the all-zero submission. -/
theorem knowledge_lookup_degrades_witness :
    ({ name := fSom.name, status := fSom.status, symptoms := "解读信息缺失。",
       advice := "请联系管理员。" } : ExplanationV1) ∈ detailedExplanationsV1 emptyKB5 zeroScores ∧
    (detailedExplanationsV1 emptyKB5 zeroScores).length = 9 ∧
    ∃ l, detailedExplanationsV2 KNOWLEDGE_BASE_V2 zeroScores = Except.ok l :=
  knowledge_lookup_degrades emptyKB5 zeroScores fSom
    (List.mem_map_of_mem (mkFactorDetailV1 zeroScores) (by decide)) rfl

/-- Claim C6 counterexample: in the V2 engine a knowledge base with no
entry for the computed pair makes the explanation stage fail — the catch
block then answers HTTP 500, not 200 with placeholder text. -/
theorem missing_knowledge_fails_v2 :
    detailedExplanationsV2 (fun _ _ => none) zeroScores = Except.error () := rfl

/-! ## Claim C10 -/

/-- Claim C10: the valid submission scoring the six hostility items at 4
and every other item 0 gets a factor classified severe — the top level of
the V2 4-level scheme — while the V2 overall assessment is the normal
state, reached through the final fallback (the first rule's
all-factors-normal test fails). -/
theorem severe_factor_overall_normal :
    (idList.all (fun i => decide (sHostile i ≤ 4))) = true ∧
    (∃ f ∈ factorDetailsV2 sHostile, f.status = Level4.severe) ∧
    overallAssessmentV2 sHostile = OLevel.normal ∧
    ¬ (∀ f ∈ factorDetailsV2 sHostile, f.averageScore < 2) := by
  refine ⟨by decide, ?_, ?_, ?_⟩
  · refine ⟨mkFactorDetailV2 sHostile ("敌对", [11, 24, 63, 67, 74, 81]),
      List.mem_map_of_mem _ (by decide), ?_⟩
    norm_num [mkFactorDetailV2, factorAverageScore, factorTotalScore, sHostile,
      getFactorStatus]
  · have ht : totalScore sHostile = 24 := by decide
    have hp : positiveItemCount sHostile = 6 := by decide
    rw [overallAssessmentV2, ht, hp]
    norm_num [getOverallStatusV2, factorDetailsV2, SCL90_FACTORS, mkFactorDetailV2,
      factorAverageScore, factorTotalScore, sHostile, getFactorStatus]
  · intro hall
    have hv := hall (mkFactorDetailV2 sHostile ("敌对", [11, 24, 63, 67, 74, 81]))
      (List.mem_map_of_mem _ (by decide))
    norm_num [mkFactorDetailV2, factorAverageScore, factorTotalScore, sHostile] at hv

end SCL90
